import Mathlib

/-!
Shallow embedding of the yoswit-homebridge-mqtt protocol translation engine:
the device registry construction (`DeviceService.fromAfterLoginResp`), the BLE
status decoder (`handleSwitchBLEData`, `handleDimmingBLEData`), the command
encoder (`switchDevice`, `dimmingDevice`) and the bridge broker event handlers
(`handleSubscription`, `handlePublish`, `extractAndCacheBleDeviceMessage`).

Conventions of the embedding:
* JS strings are Lean `String`s; all string operations are re-implemented on
  `List Char` by structural recursion so that every definition reduces in the
  kernel.
* A JS value that may be `undefined` is an `Option`; the empty string models a
  falsy string where the source only tests truthiness.
* A JS number that may be `NaN` is an `Option Int` (`none` = `NaN`).
* `Math.round(p/q)` on IEEE doubles is modelled by exact rational
  round-half-up `(2*p+q)/(2*q)`; for the two scalings used by the source
  (`b/100*255` for `0 ≤ b ≤ 100` and `v/255*100` for `0 ≤ v ≤ 255`) this was
  checked exhaustively to agree with the double-precision computation.
* The external `md5` content hash and the runtime `JSON.parse` are not code of
  this repository; they are passed as explicit function parameters.
-/

namespace Yoswit

/-- `List Char` contents of a string; every string operation below goes
through this so that all reasoning is structural. -/
def strChars (s : String) : List Char := s.toList

/-- Build a string back from characters. -/
def charsStr (l : List Char) : String := ⟨l⟩

/-- JS `s.slice(0, n)` for `0 ≤ n` (also `s.substring(0, n)`). -/
def strTake (s : String) (n : Nat) : String := charsStr ((strChars s).take n)

/-- JS `s.slice(n)` for `0 ≤ n`. -/
def strDrop (s : String) (n : Nat) : String := charsStr ((strChars s).drop n)

/-- JS `s.substring(a, b)` for `a ≤ b`: the characters at indices `[a, b)`. -/
def strSubstring (s : String) (a b : Nat) : List Char :=
  ((strChars s).drop a).take (b - a)

/-- Number of UTF-16 units of an ASCII JS string = number of chars. -/
def strLen (s : String) : Nat := (strChars s).length

/-- JS `s.slice(-1)`: the last character as a (possibly empty) string. -/
def lastChar (s : String) : Option Char := (strChars s).getLast?

/-- JS `String.prototype.padStart(n, c)` on the character list. -/
def padStartList (l : List Char) (n : Nat) (c : Char) : List Char :=
  List.replicate (n - l.length) c ++ l

/-- JS `String.prototype.padStart(n, c)`. -/
def padStart (s : String) (n : Nat) (c : Char) : String :=
  charsStr (padStartList (strChars s) n c)

/-- JS `s.startsWith(p)`. -/
def strStartsWith (s p : String) : Bool :=
  (strChars p).isPrefixOf (strChars s)

/-- JS `s.includes(p)` (substring containment). -/
def strIncludes (s p : String) : Bool :=
  (List.range ((strChars s).length + 1)).any
    (fun i => (strChars p).isPrefixOf ((strChars s).drop i))

/-- JS `s.toLowerCase()` (ASCII letters, which is all the source feeds it). -/
def strLower (s : String) : String := charsStr ((strChars s).map Char.toLower)

/-- JS `s.toUpperCase()` (ASCII letters, which is all the source feeds it). -/
def strUpper (s : String) : String := charsStr ((strChars s).map Char.toUpper)

/-- JS `s.split(":")` as used on MAC addresses. -/
def splitColonAux : List Char → List Char → List (List Char)
  | [], cur => [cur.reverse]
  | c :: rest, cur =>
    if c = ':' then cur.reverse :: splitColonAux rest []
    else splitColonAux rest (c :: cur)

/-- JS `s.split(":")`. -/
def splitColon (s : String) : List String :=
  (splitColonAux (strChars s) []).map charsStr

/-- JS `array.join("")`. -/
def joinAll (l : List String) : String := l.foldl (fun a b => a ++ b) ""

/-- Whitespace test for the trim model. -/
def isWsp (c : Char) : Bool := c = ' ' ∨ c = '\t' ∨ c = '\n' ∨ c = '\r'

/-- JS `s.trim()`. -/
def strTrim (s : String) : String :=
  charsStr ((((strChars s).dropWhile isWsp).reverse.dropWhile isWsp).reverse)

/-- Value of a hex digit as accepted by JS `parseInt(·, 16)`
(`0-9`, `a-f`, `A-F`), on the character code. -/
def hexDigitVal (c : Char) : Option Nat :=
  let n := c.toNat
  if 48 ≤ n ∧ n ≤ 57 then some (n - 48)
  else if 97 ≤ n ∧ n ≤ 102 then some (n - 87)
  else if 65 ≤ n ∧ n ≤ 70 then some (n - 55)
  else none

/-- JS `parseInt(s, 16)` on a string of at most one character: `NaN`
(= `none`) on the empty string or a non-hex character. -/
def jsParseIntHex1 (s : Option Char) : Option Nat :=
  match s with
  | none => none
  | some c => hexDigitVal c

/-- The ECMAScript `StrWhiteSpaceChar` set that `parseInt` trims: the
WhiteSpace code points (TAB, VT, FF, SP, NBSP, ZWNBSP and the Unicode `Zs`
separators) and the LineTerminators (LF, CR, LS, PS). -/
def jsStrWsp (c : Char) : Bool :=
  c = '\t' ∨ c = '\n' ∨ c = '\x0b' ∨ c = '\x0c' ∨ c = '\r' ∨ c = ' ' ∨
  c = '\xa0' ∨ c = '\u1680' ∨ ('\u2000' ≤ c ∧ c ≤ '\u200a') ∨
  c = '\u2028' ∨ c = '\u2029' ∨ c = '\u202f' ∨ c = '\u205f' ∨
  c = '\u3000' ∨ c = '\ufeff'

/-- Value of the longest hex-digit prefix, extending the digits in `acc`. -/
def hexPrefixAux : Nat → List Char → Nat
  | acc, [] => acc
  | acc, c :: rest =>
    match hexDigitVal c with
    | none => acc
    | some d => hexPrefixAux (16 * acc + d) rest

/-- Value of the longest hex-digit prefix; `none` when it is empty. -/
def hexPrefixVal : List Char → Option Nat
  | [] => none
  | c :: rest =>
    match hexDigitVal c with
    | none => none
    | some d => some (hexPrefixAux d rest)

/-- With radix 16, `parseInt` strips one leading `0x`/`0X` after the sign. -/
def strip0x : List Char → List Char
  | '0' :: 'x' :: rest => rest
  | '0' :: 'X' :: rest => rest
  | l => l

/-- JS `parseInt(s, 16)`, following the ECMAScript algorithm: trim leading
whitespace, read an optional sign, strip a `0x`/`0X` prefix, then take the
value of the longest hex-digit prefix; `NaN` (= `none`) when no digit
remains.  So `""`, `"0x"`, `"0X"`, `" -"` and `"g0"` give `NaN`, while
`" f"` and `"+f"` parse to 15, `"-f"` to `-15`, `"5x"` to 5 and `"0a"`
to 10 (checked against the double-precision `parseInt` on all two-character
inputs over digits, hex and non-hex letters, `x`/`X`, signs and the
whitespace set). -/
def jsParseIntHex (l : List Char) : Option Int :=
  match l.dropWhile jsStrWsp with
  | '-' :: rest => (hexPrefixVal (strip0x rest)).map (fun n => -(n : Int))
  | '+' :: rest => (hexPrefixVal (strip0x rest)).map (fun n => (n : Int))
  | rest => (hexPrefixVal (strip0x rest)).map (fun n => (n : Int))

/-- Binary digit for JS `parseInt(·, 2)`. -/
def binDigitVal (c : Char) : Option Nat :=
  if c = '0' then some 0 else if c = '1' then some 1 else none

/-- Longest-prefix accumulator for `parseInt(·, 2)`. -/
def parseBinAux : Nat → List Char → Nat
  | acc, [] => acc
  | acc, c :: rest =>
    match binDigitVal c with
    | none => acc
    | some d => parseBinAux (2 * acc + d) rest

/-- JS `parseInt(s, 2)`: `NaN` on empty input or leading non-binary digit. -/
def jsParseIntBin (s : String) : Option Nat :=
  match strChars s with
  | [] => none
  | c :: rest =>
    match binDigitVal c with
    | none => none
    | some d => some (parseBinAux d rest)

/-- JS `n.toString(2)` for a non-negative integer. -/
def natToBin (n : Nat) : String := charsStr (Nat.toDigits 2 n)

/-- JS `n.toString(16)` for an integer (lowercase digits, `-` sign). -/
def intToHex (n : Int) : String :=
  if n < 0 then "-" ++ charsStr (Nat.toDigits 16 (-n).toNat)
  else charsStr (Nat.toDigits 16 n.toNat)

/-- Decimal digits to a number, for the `Number(...)` model. -/
def digitsToNat (l : List Char) : Nat :=
  l.foldl (fun acc c => 10 * acc + (c.toNat - 48)) 0

/-- JS `Number(s)` restricted to the shapes the registry builder meets:
`""` is `0`, an optionally `-`-signed digit string is that integer, anything
else is `NaN` (= `none`).  (The full `Number` grammar — whitespace, hex and
decimal literals — never arises from `device_button_group` suffixes.) -/
def jsNumber (s : String) : Option Int :=
  match strChars s with
  | [] => some 0
  | '-' :: rest =>
    if rest ≠ [] ∧ rest.all Char.isDigit then some (-(digitsToNat rest : Int))
    else none
  | l => if l.all Char.isDigit then some ((digitsToNat l : Int)) else none

/-- JS string interpolation of a number: integers print in decimal and `NaN`
prints as `"NaN"`. -/
def jsNumRepr : Option Int → String
  | none => "NaN"
  | some n => toString n

/-- Exact model of JS `Math.round(p / q)` for natural `p`, positive `q`:
round half up.  For the two scalings of this program (`(b/100)*255`,
`(v/255)*100` on the integer ranges that occur) this agrees with the IEEE
double computation of the source. -/
def jsRoundNat (p q : Nat) : Nat := (2 * p + q) / (2 * q)

/-- Exact model of JS `Math.round(p / q)` for integer `p`, positive `q`:
round half toward positive infinity (floor of `p/q + 1/2`). -/
def jsRoundInt (p q : Int) : Int := Int.fdiv (2 * p + q) (2 * q)

/-- JS array access `l[i]` with a possibly negative index: out-of-range and
negative indices give `undefined`. -/
def jsGetInt (l : List Char) (i : Int) : Option Char :=
  if i < 0 then none else l.get? i.toNat

/-! ## Data model (`deviceService.ts`) -/

/-- `enum DeviceType { SWITCH, DIMMING }`. -/
inductive DeviceType where
  | SWITCH
  | DIMMING
deriving DecidableEq

/-- `interface Device`.  `name`/`roomName` use `""` for an absent value (the
source only ever tests their truthiness); `index` is `none` when the parsed
channel number is `NaN`; `macAddress` is `none` when the builder stored
`undefined` (see the dimming branch of `fromAfterLoginResp`). -/
structure Device where
  id : String
  guid : String
  name : String
  type : DeviceType
  index : Option Int
  macAddress : Option String
  roomName : String
  gatewayId : String
deriving DecidableEq

/-- `DeviceService.devices`: a `Record<string, Device>` keyed by `Device.id`,
modelled as a list in key-insertion order (ids always contain `-`, so JS
never reorders them as array indices). -/
abbrev Registry := List Device

/-- `DeviceService.getByMacAddress`. -/
def getByMacAddress (reg : Registry) (macAddress : String) : List Device :=
  reg.filter (fun device => device.macAddress = some macAddress)

/-- `DeviceService.getByName` (also direct `this.devices[id]` lookups). -/
def getByName (reg : Registry) (name : String) : Option Device :=
  reg.find? (fun device => device.id = name)

/-! ## Hub-facing MQTT messages (`aedesService.ts`) -/

/-- A JSON value appearing in the `value` field of a status payload. -/
inductive HubValue where
  | bool (b : Bool)
  | num (n : Int)
deriving DecidableEq

/-- Payload published to `{prefix}/to/set`. -/
structure SetPayload where
  name : String
  service_name : String
  characteristic : String
  value : HubValue
deriving DecidableEq

/-- Payload published to `{prefix}/to/add`; `Brightness` is the only
`additionalProperties` entry the source ever spreads in. -/
structure AddPayload where
  name : String
  service_name : String
  service : String
  Brightness : Option String
deriving DecidableEq

/-- A payload on the hub-facing broker. -/
inductive HubMsg where
  | set (p : SetPayload)
  | add (p : AddPayload)
deriving DecidableEq

/-- One `aedes.publish` call (qos 1, no retain in every call site). -/
structure HubPublish where
  topic : String
  msg : HubMsg
deriving DecidableEq

/-- The `service_name` computation repeated at every publish site:
`device.name || "Unnamed Device"` plus an optional ` (roomName)` suffix. -/
def serviceNameOf (device : Device) : String :=
  let base := if device.name = "" then "Unnamed Device" else device.name
  if device.roomName = "" then base else base ++ " (" ++ device.roomName ++ ")"

/-- `AedesService.setCharacteristic`. -/
def setCharacteristic (pfx : String) (device : Device) (characteristic : String)
    (value : HubValue) : HubPublish :=
  { topic := pfx ++ "/to/set",
    msg := .set { name := device.id, service_name := serviceNameOf device,
                  characteristic := characteristic, value := value } }

/-! ## BLE status decoder (`aedesService.ts`) -/

/-- The three-character list `"0Na".split("").reverse()` that the switch
pipeline produces when `parseInt` returned `NaN`
(`"NaN".padStart(4, "0")` is `"0NaN"`, then `.slice(0, -1)` and reverse). -/
def nanLightStates : List Char := ['a', 'N', '0']

/-- The light-state list of `handleSwitchBLEData`:
`parseInt(data.slice(-1), 16).toString(2).padStart(4, "0").slice(0, -1).split("").reverse()`.
Note that `.slice(0, -1)` removes the last character of the binary string,
i.e. the least-significant bit of the nibble. -/
def lightStatesOf (data : String) : List Char :=
  match jsParseIntHex1 (lastChar data) with
  | some statusInt =>
    ((padStartList (strChars (natToBin statusInt)) 4 '0').dropLast).reverse
  | none => nanLightStates

/-- `AedesService.handleSwitchBLEData` (the `aedes.publish` calls are the
returned list; log-and-return paths return `[]`). -/
def handleSwitchBLEData (pfx : String) (device : Device) (data : String) :
    List HubPublish :=
  let lightStates := lightStatesOf data
  if device.type ≠ DeviceType.SWITCH then []
  else
    match device.index with
    | none => []
    | some index =>
      match jsGetInt lightStates (index - 1) with
      | none => []
      | some isOn => [setCharacteristic pfx device "On" (.bool (isOn = '1'))]

/-- `AedesService.handleDimmingBLEData`: reject tails shorter than 6 chars,
parse `data.substring(4, 6)` as hex (`NaN` rejects), scale
`Math.round((brightness / 255) * 100)` — the parsed value can be negative
(e.g. a `"-f"` byte), so the brightness is an `Int` — then emit the
`Brightness` update and the `On` update. -/
def handleDimmingBLEData (pfx : String) (device : Device) (data : String) :
    List HubPublish :=
  if strLen data < 6 then []
  else
    let brightnessHex := strSubstring data 4 6
    match jsParseIntHex brightnessHex with
    | none => []
    | some raw =>
      let brightness := jsRoundInt (raw * 100) 255
      [setCharacteristic pfx device "Brightness" (.num brightness),
       setCharacteristic pfx device "On" (.bool (decide (0 < brightness)))]

/-- `AedesService.handleBleDeviceData`. -/
def handleBleDeviceData (pfx : String) (reg : Registry) (macAddress data : String) :
    List HubPublish :=
  let devices := getByMacAddress reg macAddress
  if devices.length = 0 then []
  else
    devices.flatMap (fun device =>
      match device.type with
      | .SWITCH => handleSwitchBLEData pfx device data
      | .DIMMING => handleDimmingBLEData pfx device data)

/-! ## Replay cache and broker state -/

/-- `bleDeviceCache : Map<string, string>` in insertion order. -/
abbrev Cache := List (String × String)

/-- JS `Map.prototype.set`: updates an existing key in place, else appends. -/
def mapSet : Cache → String → String → Cache
  | [], k, v => [(k, v)]
  | (k1, v1) :: rest, k, v =>
    if k1 = k then (k, v) :: rest else (k1, v1) :: mapSet rest k v

/-- JS `Map.prototype.get`. -/
def mapGet (m : Cache) (k : String) : Option String :=
  (m.find? (fun e => e.1 = k)).map (fun e => e.2)

/-- The mutable state the broker event handlers touch: the device registry
(read-only after startup) and the BLE replay cache. -/
structure BrokerState where
  registry : Registry
  cache : Cache
deriving DecidableEq

/-- `AedesService.extractAndCacheBleDeviceMessage`: split the payload into
MAC (first 17 chars) and tail, cache the tail for the MAC, then decode. -/
def extractAndCacheBleDeviceMessage (pfx : String) (st : BrokerState)
    (payloadString : String) : BrokerState × List HubPublish :=
  let macAddress := strTake payloadString 17
  let data := strDrop payloadString 17
  let st2 : BrokerState := { st with cache := mapSet st.cache macAddress data }
  (st2, handleBleDeviceData pfx st2.registry macAddress data)

/-! ## Device discovery and subscription handling -/

/-- `AedesService.addDevice`: the discovery publish to `{prefix}/to/add`;
`additional` is the optional `Brightness` entry of `additionalProperties`. -/
def addDevice (pfx : String) (device : Device) (service : String)
    (additional : Option String) : HubPublish :=
  { topic := pfx ++ "/to/add",
    msg := .add { name := device.id, service_name := serviceNameOf device,
                  service := service, Brightness := additional } }

/-- `AedesService.publishDeviceAddition`. -/
def publishDeviceAddition (pfx : String) (device : Device) : HubPublish :=
  match device.type with
  | .SWITCH => addDevice pfx device "Lightbulb" none
  | .DIMMING => addDevice pfx device "Lightbulb" (some "default")

/-- `AedesService.handleSubscription`: on a subscription to `{prefix}/to/#`,
publish a discovery message per registry device, then replay every cached
BLE entry through the decode pipeline; any other topic does nothing. -/
def handleSubscription (pfx : String) (st : BrokerState) (topic : String) :
    List HubPublish :=
  if topic ≠ pfx ++ "/to/#" then []
  else
    (st.registry.map (publishDeviceAddition pfx)) ++
      st.cache.flatMap (fun e => handleBleDeviceData pfx st.registry e.1 e.2)

/-! ## Command encoder (`deviceService.ts`) -/

/-- One entry of the `params` array of the cloud command envelope. -/
structure CloudParam where
  action : String
  guid : String
  mac_address : String
  service_id : String
  char_id : String
  value : String
deriving DecidableEq

/-- The cloud "perform BLE GATT write" command object. -/
structure CloudCommand where
  command : String
  function : String
  params : List CloudParam
  callback : String
  raw : String
deriving DecidableEq

/-- One `mqttService.publish(topic, data)` call to the cloud broker. -/
structure CloudPublish where
  topic : String
  data : CloudCommand
deriving DecidableEq

/-- `macAddress.split(":").reverse().join("")`. -/
def reverseMac (macAddress : String) : String :=
  joinAll ((splitColon macAddress).reverse)

/-- The 8-slot bit array of `switchDevice`, with JS array semantics:
`Array(8).fill(0)` then element assignment; an assignment at a negative
index becomes an ignored property, an assignment past the end extends the
array with holes (`none`), which `join("")` skips. -/
def jsArraySet (l : List (Option Char)) (i : Int) (c : Char) :
    List (Option Char) :=
  if i < 0 then l
  else
    let n := i.toNat
    if n < l.length then l.set n (some c)
    else l ++ List.replicate (n - l.length) none ++ [some c]

/-- `bits.join("")` (holes contribute the empty string). -/
def jsJoinBits (l : List (Option Char)) : String := charsStr (l.filterMap id)

/-- The computed data byte of `switchDevice`:
`bits[4 - position] = 1; if (isOn) bits[8 - position] = 1;` then
`parseInt(bits.join(""), 2).toString(16).toUpperCase().padStart(2, "0")`.
A `NaN` position indexes the property `"NaN"`, which `join` ignores. -/
def switchDataByte (position : Option Int) (isOn : Bool) : String :=
  let bits0 : List (Option Char) := List.replicate 8 (some '0')
  let bits1 :=
    match position with
    | none => bits0
    | some p => jsArraySet bits0 (4 - p) '1'
  let bits2 :=
    match position with
    | none => bits1
    | some p => if isOn then jsArraySet bits1 (8 - p) '1' else bits1
  match jsParseIntBin (jsJoinBits bits2) with
  | some n => padStart (strUpper (intToHex n)) 2 '0'
  | none => padStart (strUpper "NaN") 2 '0'

/-- `DeviceService.switchDevice`: throws (`.error`) when the id is unknown or
the device is not a switch; a device stored without a MAC address raises a
`TypeError` at `macAddress.split` (only reachable for mis-built entries).
`md5` is the external content hash; the cloud publish is the returned value. -/
def switchDevice (md5 : String → String) (reg : Registry) (id : String)
    (isOn : Bool) : Except String CloudPublish :=
  match getByName reg id with
  | none => .error ("Device with id " ++ id ++ " not found")
  | some device =>
    if device.type ≠ DeviceType.SWITCH then
      .error ("Device with id " ++ id ++ " is not a switch")
    else
      match device.macAddress with
      | none => .error "TypeError: undefined macAddress"
      | some macAddress =>
        let data := switchDataByte device.index isOn
        let reversedMac := reverseMac macAddress
        let value := "02" ++ reversedMac ++ "8000" ++ data ++ "00"
        let topic := "cmd/" ++ md5 (md5 device.gatewayId)
        .ok { topic := topic,
              data := { command := "Control", function := "bleHelper.perform",
                        params := [{ action := "write", guid := device.guid,
                                     mac_address := macAddress,
                                     service_id := "ff80", char_id := "ff81",
                                     value := value }],
                        callback := "", raw := "" } }

/-- `DeviceService.dimmingDevice`: throws when the id is unknown or the device
is not a dimmer; a device stored without a MAC address raises a `TypeError`
at `macAddress.split`.  `Math.round((brightness / 100) * 255)` is the
`jsRoundInt` model; the byte then prints as
`.toString(16).padStart(2, "0").toUpperCase()`. -/
def dimmingDevice (md5 : String → String) (reg : Registry) (id : String)
    (brightness : Int) : Except String CloudPublish :=
  match getByName reg id with
  | none => .error ("Device with id " ++ id ++ " not found")
  | some device =>
    if device.type ≠ DeviceType.DIMMING then
      .error ("Device with id " ++ id ++ " is not a dimming device")
    else
      match device.macAddress with
      | none => .error "TypeError: undefined macAddress"
      | some macAddress =>
        let scaledBrightness := jsRoundInt (255 * brightness) 100
        let data := strUpper (padStart (intToHex scaledBrightness) 2 '0')
        let reversedMac := reverseMac macAddress
        let value := "02" ++ reversedMac ++ "8900" ++ data
        let topic := "cmd/" ++ md5 (md5 device.gatewayId)
        .ok { topic := topic,
              data := { command := "Control", function := "bleHelper.perform",
                        params := [{ action := "write", guid := device.guid,
                                     mac_address := macAddress,
                                     service_id := "ff80", char_id := "ff81",
                                     value := value }],
                        callback := "", raw := "" } }

/-! ## Hub command handling (`aedesService.ts`) -/

/-- A JSON value in the `value` field of an inbound hub command. -/
inductive JSValue where
  | bool (b : Bool)
  | num (n : Int)
deriving DecidableEq

/-- JS truthiness of such a value. -/
def truthy : JSValue → Bool
  | .bool b => b
  | .num n => n ≠ 0

/-- JS `Number(v)` on such a value. -/
def jsNumberOf : JSValue → Int
  | .bool b => if b then 1 else 0
  | .num n => n

/-- `interface HomebridgeSetPayload`. -/
structure HomebridgeSetPayload where
  name : String
  value : JSValue
  characteristic : String
deriving DecidableEq

/-- `AedesService.handleHomebridgeSetMessage`: resolves the device, validates
the characteristic against the device type, invokes the encoder inside a
`try`/`catch`, and returns the cloud publishes actually issued (`[]` on every
logged error path — nothing escapes this handler). -/
def handleHomebridgeSetMessage (md5 : String → String) (reg : Registry)
    (payload : HomebridgeSetPayload) : List CloudPublish :=
  match getByName reg payload.name with
  | none => []
  | some device =>
    match payload.characteristic with
    | "On" =>
      if device.type ≠ DeviceType.SWITCH ∧ device.type ≠ DeviceType.DIMMING then
        []
      else if device.type = DeviceType.SWITCH then
        match switchDevice md5 reg payload.name (truthy payload.value) with
        | .ok pub => [pub]
        | .error _ => []
      else
        let brightness : Int := if truthy payload.value then 100 else 0
        match dimmingDevice md5 reg payload.name brightness with
        | .ok pub => [pub]
        | .error _ => []
    | "Brightness" =>
      if device.type ≠ DeviceType.DIMMING then []
      else
        match dimmingDevice md5 reg payload.name (jsNumberOf payload.value) with
        | .ok pub => [pub]
        | .error _ => []
    | _ => []

/-- `AedesService.handlePublish`.  `parse` models the runtime `JSON.parse`
(external code): `none` models a thrown `SyntaxError`, which the source does
not guard, so it escapes the handler (the `.error` result).  On success the
result carries the new broker state, the hub publishes and the cloud
publishes. -/
def handlePublish (md5 : String → String)
    (parse : String → Option HomebridgeSetPayload) (pfx : String)
    (st : BrokerState) (topic payload : String) :
    Except String (BrokerState × List HubPublish × List CloudPublish) :=
  match
    (if topic = pfx ++ "/from/set" then
      match parse payload with
      | none => Except.error "SyntaxError: JSON.parse"
      | some p => Except.ok (handleHomebridgeSetMessage md5 st.registry p)
    else Except.ok ([] : List CloudPublish)) with
  | .error e => .error e
  | .ok cloudPubs =>
    if topic = "yoswit/ble/devices" then
      let r := extractAndCacheBleDeviceMessage pfx st payload
      .ok (r.1, r.2, cloudPubs)
    else
      .ok (st, [], cloudPubs)

/-! ## Registry construction (`DeviceService.fromAfterLoginResp`) -/

/-- One record of `data.profile.profile_device` (falsy fields are `""`). -/
structure ProfileDevice where
  device : String
  gateway : String
deriving DecidableEq

/-- One value of `data.device` (falsy fields are `""`). -/
structure DeviceData where
  name : String
  mac_address : String
deriving DecidableEq

/-- One record of `data.profile.profile_subdevice` (falsy fields are `""`). -/
structure ProfileSubdevice where
  device_button_group : String
  device : String
  title : String
  room_name : String
deriving DecidableEq

/-- The cloud snapshot shape consumed by the builder. -/
structure AfterLoginResp where
  profile_device : List ProfileDevice
  device : List DeviceData
  profile_subdevice : List ProfileSubdevice
deriving DecidableEq

/-- An entry of the intermediate `deviceInfo` map: the gateway is always set
when the entry exists; the MAC address is filled in by the second pass. -/
structure ModuleInfo where
  gateway : String
  macAddress : Option String
deriving DecidableEq

/-- The intermediate `deviceInfo` map: first pass stores the gateway per
module (skipping records with a falsy device or gateway, a later record
overwriting an earlier one), second pass lowercases and stores the MAC from
the device records (skipping falsy names/MACs and modules without gateway
info). -/
def buildDeviceInfo (resp : AfterLoginResp) : String → Option ModuleInfo :=
  let pass1 : String → Option ModuleInfo := resp.profile_device.foldl
    (fun (m : String → Option ModuleInfo) pd =>
      if pd.device = "" ∨ pd.gateway = "" then m
      else fun k =>
        if k = pd.device then some { gateway := pd.gateway, macAddress := none }
        else m k)
    (fun _ => none)
  resp.device.foldl
    (fun (m : String → Option ModuleInfo) dd =>
      if dd.name = "" ∨ dd.mac_address = "" then m
      else
        match m dd.name with
        | none => m
        | some info =>
          if info.gateway = "" then m
          else fun k =>
            if k = dd.name then
              some { info with macAddress := some (strLower dd.mac_address) }
            else m k)
    pass1

/-- `roomName.replace(/\[\/?en\]/g, "")`: delete every `[en]` / `[/en]`. -/
def stripEnTags : List Char → List Char
  | '[' :: 'e' :: 'n' :: ']' :: rest => stripEnTags rest
  | '[' :: '/' :: 'e' :: 'n' :: ']' :: rest => stripEnTags rest
  | c :: rest => c :: stripEnTags rest
  | [] => []

/-- `let roomName = sd.room_name; if (roomName) roomName = roomName.replace(...).trim()`. -/
def processRoomName (s : String) : String :=
  if s = "" then s else strTrim (charsStr (stripEnTags (strChars s)))

/-- The body of the `profile_subdevice` loop of `fromAfterLoginResp`,
accumulating devices in insertion order.  The whole body runs in a
`try`/`catch`, so the dimming branch models the runtime `TypeError` on a
missing `deviceInfo` entry as a skip; when the entry exists, the dimming
branch stores `deviceInfo[...]!.macAddress!` without any presence check
(`none` when the module has no MAC record). -/
def buildSubdevice (info : String → Option ModuleInfo) (acc : List Device)
    (sd : ProfileSubdevice) : List Device :=
  if sd.device_button_group = "" then acc
  else if strStartsWith sd.device_button_group "ONOFF GANG" then
    let name := sd.title
    if name ≠ "" ∧ (strIncludes name "V1" ∨ strIncludes name "V2") then acc
    else
      let index := jsNumber (strDrop sd.device_button_group 10)
      let id := sd.device ++ "-" ++ jsNumRepr index
      if (acc.find? (fun d => d.id = id)).isSome then acc
      else if sd.device = "" then acc
      else
        let roomName := processRoomName sd.room_name
        match info sd.device with
        | none => acc
        | some mi =>
          match mi.macAddress with
          | none => acc
          | some macAddress =>
            if macAddress = "" ∨ mi.gateway = "" then acc
            else
              acc ++ [{ id := id, guid := sd.device, name := name,
                        type := DeviceType.SWITCH, index := index,
                        macAddress := some macAddress, roomName := roomName,
                        gatewayId := mi.gateway }]
  else if strStartsWith sd.device_button_group "DIMMING" then
    let id := sd.device ++ "-0"
    if (acc.find? (fun d => d.id = id)).isSome then acc
    else if sd.device = "" then acc
    else
      let roomName := processRoomName sd.room_name
      match info sd.device with
      | none => acc
      | some mi =>
        acc ++ [{ id := id, guid := sd.device, name := sd.title,
                  type := DeviceType.DIMMING, index := some 0,
                  macAddress := mi.macAddress, roomName := roomName,
                  gatewayId := mi.gateway }]
  else acc

/-- `DeviceService.fromAfterLoginResp`. -/
def fromAfterLoginResp (resp : AfterLoginResp) : Registry :=
  resp.profile_subdevice.foldl (buildSubdevice (buildDeviceInfo resp)) []

/-! ## Auxiliary definitions for the verification -/

/-- Character of bit `k` of `n`, for describing the light-state list. -/
def bitChar (n k : Nat) : Char := if n.testBit k then '1' else '0'

/-- Whether an encoder call threw (the promise rejected). -/
def isErr (r : Except String CloudPublish) : Bool :=
  match r with
  | .error _ => true
  | .ok _ => false

/-- A concrete 1-gang switch device as the registry builder would store it. -/
def kitchenSwitch : Device :=
  { id := "M1-1", guid := "M1", name := "Kitchen", type := DeviceType.SWITCH,
    index := some 1, macAddress := some "aa:bb:cc:dd:ee:ff", roomName := "",
    gatewayId := "G1" }

/-- A concrete dimmer device as the registry builder would store it. -/
def lampDimmer : Device :=
  { id := "M2-0", guid := "M2", name := "Lamp", type := DeviceType.DIMMING,
    index := some 0, macAddress := some "11:22:33:44:55:66", roomName := "",
    gatewayId := "G1" }

/-- A cloud snapshot whose only module has gateway info but no device record
(hence no MAC address), and a single `DIMMING` subdevice. -/
def snapC3 : AfterLoginResp :=
  { profile_device := [{ device := "M1", gateway := "G1" }],
    device := [],
    profile_subdevice := [{ device_button_group := "DIMMING", device := "M1",
                            title := "Lamp", room_name := "" }] }

/-- The device that `fromAfterLoginResp snapC3` actually stores: note the
`macAddress := none` (JS `undefined`). -/
def c3Stored : Device :=
  { id := "M1-0", guid := "M1", name := "Lamp", type := DeviceType.DIMMING,
    index := some 0, macAddress := none, roomName := "", gatewayId := "G1" }

/-- A small broker state for concrete instantiations. -/
def sampleState : BrokerState :=
  { registry := [kitchenSwitch, lampDimmer],
    cache := [("aa:bb:cc:dd:ee:ff", "4001")] }

/-! ## Helper lemmas -/

theorem hexDigitVal_lt {c : Char} {n : Nat} (h : hexDigitVal c = some n) :
    n < 16 := by
  simp only [hexDigitVal] at h
  split_ifs at h <;> simp_all <;> omega

theorem lightStates_hex (data : String) (c : Char) (n : Nat)
    (h3 : lastChar data = some c) (h4 : hexDigitVal c = some n) :
    lightStatesOf data = [bitChar n 1, bitChar n 2, bitChar n 3] := by
  have hlt : n < 16 := hexDigitVal_lt h4
  have key : ∀ m, m < 16 →
      ((padStartList (strChars (natToBin m)) 4 '0').dropLast).reverse =
        [bitChar m 1, bitChar m 2, bitChar m 3] := by decide
  simp only [lightStatesOf, jsParseIntHex1, h3, h4]
  exact key n hlt

theorem jsGetInt_three (x y z : Char) (i : Int) :
    jsGetInt [x, y, z] (i - 1) =
      if i = 1 then some x
      else if i = 2 then some y
      else if i = 3 then some z
      else none := by
  unfold jsGetInt
  by_cases h0 : i - 1 < 0
  · rw [if_pos h0, if_neg (by omega), if_neg (by omega), if_neg (by omega)]
  · rw [if_neg h0]
    rcases hk : (i - 1).toNat with _ | k1
    · rw [if_pos (by omega)]; rfl
    · rcases k1 with _ | k2
      · rw [if_neg (by omega), if_pos (by omega)]; rfl
      · rcases k2 with _ | k3
        · rw [if_neg (by omega), if_neg (by omega), if_pos (by omega)]; rfl
        · rw [if_neg (by omega), if_neg (by omega), if_neg (by omega)]
          simp [List.get?]

theorem decide_bitChar (n k : Nat) : decide (bitChar n k = '1') = n.testBit k := by
  unfold bitChar
  by_cases h : n.testBit k <;> simp [h]

theorem handleSwitch_eval (pfx : String) (device : Device) (data : String)
    (i : Int) (h1 : device.type = DeviceType.SWITCH)
    (h2 : device.index = some i) :
    handleSwitchBLEData pfx device data =
      match jsGetInt (lightStatesOf data) (i - 1) with
      | none => []
      | some c => [setCharacteristic pfx device "On" (.bool (c = '1'))] := by
  unfold handleSwitchBLEData
  rw [h1, h2]
  simp

theorem mapGet_cons (k1 v1 : String) (rest : Cache) (k : String) :
    mapGet ((k1, v1) :: rest) k = if k1 = k then some v1 else mapGet rest k := by
  unfold mapGet
  by_cases h : k1 = k <;> simp [List.find?, h]

theorem mapGet_set_self (m : Cache) (k v : String) :
    mapGet (mapSet m k v) k = some v := by
  induction m with
  | nil => simp [mapSet, mapGet_cons]
  | cons e rest ih =>
    obtain ⟨k1, v1⟩ := e
    by_cases h : k1 = k <;> simp [mapSet, h, mapGet_cons, ih]

theorem mapGet_set_ne (m : Cache) (k v k2 : String) (h : k2 ≠ k) :
    mapGet (mapSet m k v) k2 = mapGet m k2 := by
  induction m with
  | nil => simp [mapSet, mapGet_cons, mapGet, Ne.symm h]
  | cons e rest ih =>
    obtain ⟨k1, v1⟩ := e
    by_cases he : k1 = k
    · subst he
      simp [mapSet, mapGet_cons, Ne.symm h]
    · by_cases he2 : k1 = k2 <;> simp [mapSet, he, mapGet_cons, he2, ih, h]

/-- On non-negative parsed bytes (all that a sign-free hex pair can produce,
and the whole image of the dimming encoder) the decoder's `Int` rounding
agrees with the `Nat` rounding that the C8 statement names as the decoder
scaling. -/
theorem jsRoundInt_eq_jsRoundNat (v : Nat) :
    jsRoundInt ((v : Int) * 100) 255 = (jsRoundNat (v * 100) 255 : Nat) := by
  unfold jsRoundInt jsRoundNat
  rw [Int.fdiv_eq_ediv _ (by norm_num)]
  omega

/-! ## Claim C1 -/

/-- C1 (corrected): the claim said the switch decoder drops the
most-significant bit of the status nibble and that a tail ending in nibble 1
decodes to `On = true` for channel index 1.  The code's
`.toString(2).padStart(4, "0").slice(0, -1)` instead drops the
least-significant bit, so after the reverse, channel `i` reads nibble bit `i`
(not bit `i-1`): for a Switch device with index `i` and a tail whose final
character is a hex digit of value `n`, the decoder emits `On = testBit n i`
when `1 ≤ i ≤ 3` and emits nothing otherwise (non-fatal skip). -/
theorem C1_switch_decode_amended (pfx : String) (device : Device)
    (data : String) (i : Int) (c : Char) (n : Nat)
    (h1 : device.type = DeviceType.SWITCH) (h2 : device.index = some i)
    (h3 : lastChar data = some c) (h4 : hexDigitVal c = some n) :
    handleSwitchBLEData pfx device data =
      if 1 ≤ i ∧ i ≤ 3 then
        [setCharacteristic pfx device "On" (.bool (n.testBit i.toNat))]
      else [] := by
  rw [handleSwitch_eval pfx device data i h1 h2, lightStates_hex data c n h3 h4,
      jsGetInt_three]
  by_cases hi1 : i = 1
  · subst hi1; norm_num [decide_bitChar]
  · by_cases hi2 : i = 2
    · subst hi2; norm_num [hi1, decide_bitChar]; rfl
    · by_cases hi3 : i = 3
      · subst hi3; norm_num [hi1, hi2, decide_bitChar]; rfl
      · rw [if_neg (show ¬(1 ≤ i ∧ i ≤ 3) by omega)]
        simp [hi1, hi2, hi3]

/-- C1 counterexample: the concrete scenario of the claim — a Switch device
with index 1 and the BLE tail `4001` (status nibble 1) — decodes to
`On = false`, not `On = true`. -/
theorem C1_counterexample :
    handleSwitchBLEData "homebridge" kitchenSwitch "4001" =
      [setCharacteristic "homebridge" kitchenSwitch "On" (.bool false)] ∧
    handleSwitchBLEData "homebridge" kitchenSwitch "4001" ≠
      [setCharacteristic "homebridge" kitchenSwitch "On" (.bool true)] :=
  ⟨by decide, by decide⟩

/-- C1 witness: the amended statement at index 1 and tail `4002`
(nibble 2, whose bit 1 is set), where the decoder emits `On = true`. -/
theorem C1_witness :
    handleSwitchBLEData "homebridge" kitchenSwitch "4002" =
      if 1 ≤ (1 : Int) ∧ (1 : Int) ≤ 3 then
        [setCharacteristic "homebridge" kitchenSwitch "On"
          (.bool ((2 : Nat).testBit (1 : Int).toNat))]
      else [] :=
  C1_switch_decode_amended "homebridge" kitchenSwitch "4002" 1 '2' 2 rfl rfl
    (by decide) (by decide)

/-! ## Claim C4 -/

/-- C4 (corrected): the claimed encode→decode round trip fails.  For a Switch
device with channel index `i ∈ {1, 2, 3}`, decoding the low nibble of the
data byte computed by the encoder for that same index yields `On = false`
regardless of the encoded state (the encoder sets nibble bit `i - 1`, the
decoder reads nibble bit `i`); the encoded state is recovered one channel
lower: decoding at index `i` the byte encoded for index `i + 1` yields the
encoded state. -/
theorem C4_roundtrip_amended (pfx : String) (device : Device) (i : Int)
    (isOn : Bool) (h1 : device.type = DeviceType.SWITCH)
    (h2 : device.index = some i) (hlo : 1 ≤ i) (hhi : i ≤ 3) :
    handleSwitchBLEData pfx device (switchDataByte (some i) isOn) =
      [setCharacteristic pfx device "On" (.bool false)] ∧
    handleSwitchBLEData pfx device (switchDataByte (some (i + 1)) isOn) =
      [setCharacteristic pfx device "On" (.bool isOn)] := by
  have he : ∀ d : String, handleSwitchBLEData pfx device d =
      match jsGetInt (lightStatesOf d) (i - 1) with
      | none => []
      | some c => [setCharacteristic pfx device "On" (.bool (c = '1'))] :=
    fun d => handleSwitch_eval pfx device d i h1 h2
  interval_cases i <;> cases isOn <;>
    exact ⟨by rw [he]; rfl, by rw [he]; rfl⟩

/-- C4 counterexample: encoding `on = true` for channel index 1 produces the
data byte `"11"`; decoding its low nibble for the same device yields
`On = false`, not `On = true` as claimed. -/
theorem C4_counterexample :
    switchDataByte (some 1) true = "11" ∧
    handleSwitchBLEData "homebridge" kitchenSwitch (switchDataByte (some 1) true) =
      [setCharacteristic "homebridge" kitchenSwitch "On" (.bool false)] ∧
    handleSwitchBLEData "homebridge" kitchenSwitch (switchDataByte (some 1) true) ≠
      [setCharacteristic "homebridge" kitchenSwitch "On" (.bool true)] :=
  ⟨by decide, by decide, by decide⟩

/-- C4 witness: the amended round-trip statement at index 1, `on = true`. -/
theorem C4_witness :
    handleSwitchBLEData "homebridge" kitchenSwitch (switchDataByte (some 1) true) =
      [setCharacteristic "homebridge" kitchenSwitch "On" (.bool false)] ∧
    handleSwitchBLEData "homebridge" kitchenSwitch (switchDataByte (some (1 + 1)) true) =
      [setCharacteristic "homebridge" kitchenSwitch "On" (.bool true)] :=
  C4_roundtrip_amended "homebridge" kitchenSwitch 1 true rfl rfl
    (by decide) (by decide)

/-! ## Claim C5 -/

/-- C5 (confirmed): for every Dimming device and data tail, a tail shorter
than 6 characters or whose `substring(4, 6)` parses to `NaN` under the
ECMAScript `parseInt(·, 16)` algorithm emits no update; otherwise — the
parsed value `raw` can be negative for a sign-prefixed byte — the decoder
emits a `Brightness` update with `b = round(raw / 255 * 100)` (characterized
exactly by `510*b ≤ 200*raw + 255 < 510*(b+1)`, round half toward positive
infinity) followed by an `On` update with value `b > 0`; in particular the
tail `00007F` (byte `7F` = 127) yields `Brightness = 50` and `On = true`. -/
theorem C5_dimming_decode (pfx : String) (device : Device) (data : String) :
    (strLen data < 6 → handleDimmingBLEData pfx device data = []) ∧
    (∀ raw : Int, 6 ≤ strLen data →
      jsParseIntHex (strSubstring data 4 6) = some raw →
      ∃ b : Int,
        handleDimmingBLEData pfx device data =
          [setCharacteristic pfx device "Brightness" (.num b),
           setCharacteristic pfx device "On" (.bool (decide (0 < b)))] ∧
        510 * b ≤ 200 * raw + 255 ∧ 200 * raw + 255 < 510 * (b + 1)) ∧
    (6 ≤ strLen data → jsParseIntHex (strSubstring data 4 6) = none →
      handleDimmingBLEData pfx device data = []) ∧
    (handleDimmingBLEData pfx device "00007F" =
      [setCharacteristic pfx device "Brightness" (.num 50),
       setCharacteristic pfx device "On" (.bool true)]) := by
  refine ⟨?_, ?_, ?_, ?_⟩
  · intro h; simp [handleDimmingBLEData, h]
  · intro raw h6 hp
    refine ⟨jsRoundInt (raw * 100) 255, ?_, ?_, ?_⟩
    · simp [handleDimmingBLEData, Nat.not_lt.mpr h6, hp]
    · unfold jsRoundInt
      rw [Int.fdiv_eq_ediv _ (by norm_num)]
      omega
    · unfold jsRoundInt
      rw [Int.fdiv_eq_ediv _ (by norm_num)]
      omega
  · intro h6 hp
    simp [handleDimmingBLEData, Nat.not_lt.mpr h6, hp]
  · rfl

/-- C5 witness: the second conjunct applied to the dimmer and the tail
`00007F`, together with the concrete decode result. -/
theorem C5_witness :
    (∃ b : Int,
      handleDimmingBLEData "homebridge" lampDimmer "00007F" =
        [setCharacteristic "homebridge" lampDimmer "Brightness" (.num b),
         setCharacteristic "homebridge" lampDimmer "On" (.bool (decide (0 < b)))] ∧
      510 * b ≤ 200 * 127 + 255 ∧ 200 * 127 + 255 < 510 * (b + 1)) ∧
    handleDimmingBLEData "homebridge" lampDimmer "00007F" =
      [setCharacteristic "homebridge" lampDimmer "Brightness" (.num 50),
       setCharacteristic "homebridge" lampDimmer "On" (.bool true)] :=
  ⟨(C5_dimming_decode "homebridge" lampDimmer "00007F").2.1 127 (by decide)
    (by decide), by decide⟩

/-! ## Claim C2 -/

/-- C2 (confirmed): a subscription to exactly `{prefix}/to/#` first publishes
one discovery message to `{prefix}/to/add` per registry device (service
`Lightbulb`, with `Brightness: "default"` exactly for Dimming devices), and
afterwards replays every cached (MAC, payload) entry of the replay cache
through the decode pipeline; a subscription to any other topic publishes
nothing. -/
theorem C2_subscription_replay (pfx : String) (st : BrokerState)
    (topic : String) :
    handleSubscription pfx st topic =
      if topic = pfx ++ "/to/#" then
        (st.registry.map (fun device =>
          { topic := pfx ++ "/to/add",
            msg := HubMsg.add { name := device.id,
                                service_name := serviceNameOf device,
                                service := "Lightbulb",
                                Brightness :=
                                  if device.type = DeviceType.DIMMING then
                                    some "default"
                                  else none } })) ++
          st.cache.flatMap (fun e => handleBleDeviceData pfx st.registry e.1 e.2)
      else [] := by
  have hmap : publishDeviceAddition pfx = fun device =>
      ({ topic := pfx ++ "/to/add",
         msg := HubMsg.add { name := device.id,
                             service_name := serviceNameOf device,
                             service := "Lightbulb",
                             Brightness :=
                               if device.type = DeviceType.DIMMING then
                                 some "default"
                               else none } } : HubPublish) := by
    funext device
    cases hd : device.type <;> simp [publishDeviceAddition, addDevice, hd]
  unfold handleSubscription
  by_cases h : topic = pfx ++ "/to/#" <;> simp [h, hmap]

/-! ## Claim C3 -/

/-- C3 (code_bug): the registry builder stores a Dimming device even when the
module's MAC address is missing.  On the snapshot `snapC3` — one
profile-device association giving module `M1` gateway `G1`, no device record
(so no MAC), and one `DIMMING` subdevice — the build stores exactly one
device, of type Dimming, with `macAddress = none` (the unchecked
`deviceInfo[...]!.macAddress!` of the dimming branch), contradicting the
claim that records whose module lacks a MAC are dropped. -/
theorem C3_dimming_missing_mac :
    fromAfterLoginResp snapC3 = [c3Stored] ∧
    c3Stored.type = DeviceType.DIMMING ∧
    c3Stored.macAddress = none ∧
    c3Stored.gatewayId = "G1" ∧
    c3Stored.id = "M1-0" :=
  ⟨by decide, rfl, rfl, rfl, rfl⟩

/-! ## Claim C6 -/

/-- C6 (corrected): `switchDevice`/`dimmingDevice` throw exactly when the id
is unknown, the device type mismatches, or — the correction — the stored
device has no MAC address (reachable for Dimming entries through the builder
flaw of C3); every throw happens before the cloud publish, so an error result
carries no publish.  The hub-command handler resolves the device, returns
with a log (no publish) on unknown names, rejects `Brightness` for
non-Dimming devices and unknown characteristics, and catches every encoder
error, always returning normally. -/
theorem C6_encoder_errors (md5 : String → String) (reg : Registry)
    (id : String) (isOn : Bool) (brightness : Int)
    (payload : HomebridgeSetPayload) :
    (isErr (switchDevice md5 reg id isOn) = true ↔
      ¬ ∃ device m, getByName reg id = some device ∧
        device.type = DeviceType.SWITCH ∧ device.macAddress = some m) ∧
    (isErr (dimmingDevice md5 reg id brightness) = true ↔
      ¬ ∃ device m, getByName reg id = some device ∧
        device.type = DeviceType.DIMMING ∧ device.macAddress = some m) ∧
    (getByName reg payload.name = none →
      handleHomebridgeSetMessage md5 reg payload = []) ∧
    (∀ device, getByName reg payload.name = some device →
      payload.characteristic = "Brightness" →
      device.type ≠ DeviceType.DIMMING →
      handleHomebridgeSetMessage md5 reg payload = []) ∧
    (payload.characteristic ≠ "On" → payload.characteristic ≠ "Brightness" →
      handleHomebridgeSetMessage md5 reg payload = []) ∧
    (payload.characteristic = "On" →
      isErr (switchDevice md5 reg payload.name (truthy payload.value)) = true →
      isErr (dimmingDevice md5 reg payload.name
        (if truthy payload.value then 100 else 0)) = true →
      handleHomebridgeSetMessage md5 reg payload = []) ∧
    (payload.characteristic = "Brightness" →
      isErr (dimmingDevice md5 reg payload.name (jsNumberOf payload.value)) = true →
      handleHomebridgeSetMessage md5 reg payload = []) := by
  refine ⟨?_, ?_, ?_, ?_, ?_, ?_, ?_⟩
  · unfold switchDevice
    cases hg : getByName reg id with
    | none => simp [hg, isErr]
    | some device =>
      by_cases ht : device.type = DeviceType.SWITCH
      · cases hm : device.macAddress with
        | none => simp [hg, ht, hm, isErr]
        | some m => simp [hg, ht, hm, isErr]
      · simp [hg, ht, isErr]
  · unfold dimmingDevice
    cases hg : getByName reg id with
    | none => simp [hg, isErr]
    | some device =>
      by_cases ht : device.type = DeviceType.DIMMING
      · cases hm : device.macAddress with
        | none => simp [hg, ht, hm, isErr]
        | some m => simp [hg, ht, hm, isErr]
      · simp [hg, ht, isErr]
  · intro h
    unfold handleHomebridgeSetMessage
    simp [h]
  · intro device hg hc ht
    unfold handleHomebridgeSetMessage
    rw [hg, hc]
    simp [ht]
  · intro h1 h2
    unfold handleHomebridgeSetMessage
    cases hg : getByName reg payload.name with
    | none => rfl
    | some device =>
      simp only [hg]
  · intro hc hsw hdim
    unfold handleHomebridgeSetMessage
    cases hg : getByName reg payload.name with
    | none => rfl
    | some device =>
      simp only [hg, hc]
      by_cases ht : device.type = DeviceType.SWITCH
      · simp only [ht]
        cases hr : switchDevice md5 reg payload.name (truthy payload.value) with
        | ok p => rw [hr] at hsw; simp [isErr] at hsw
        | error e => simp [hr]
      · have ht2 : device.type = DeviceType.DIMMING := by
          cases hdt : device.type
          · exact absurd hdt ht
          · rfl
        simp only [ht, ht2]
        cases hr : dimmingDevice md5 reg payload.name
            (if truthy payload.value then 100 else 0) with
        | ok p => rw [hr] at hdim; simp [isErr] at hdim
        | error e => simp [hr, ht, ht2]
  · intro hc hdim
    unfold handleHomebridgeSetMessage
    cases hg : getByName reg payload.name with
    | none => rfl
    | some device =>
      simp only [hg, hc]
      by_cases ht : device.type = DeviceType.DIMMING
      · simp only [ht]
        cases hr : dimmingDevice md5 reg payload.name (jsNumberOf payload.value) with
        | ok p => rw [hr] at hdim; simp [isErr] at hdim
        | error e => simp [hr, ht]
      · simp [ht]

/-- C6 counterexample: on the registry actually built from `snapC3`, the
device `M1-0` exists and is of type Dimming, yet `dimmingDevice` still throws
(`TypeError` at `macAddress.split`), refuting "raises exactly when the id is
absent or the device is not of type Dimming". -/
theorem C6_counterexample :
    isErr (dimmingDevice (fun s => s) (fromAfterLoginResp snapC3) "M1-0" 50) =
      true ∧
    getByName (fromAfterLoginResp snapC3) "M1-0" = some c3Stored ∧
    c3Stored.type = DeviceType.DIMMING :=
  ⟨rfl, by decide, rfl⟩

/-- C6 witness: the handler returns normally with no publish for a command
naming an unknown device. -/
theorem C6_witness :
    handleHomebridgeSetMessage (fun s => s) [kitchenSwitch]
      { name := "unknown", value := JSValue.bool true,
        characteristic := "On" } = [] :=
  (C6_encoder_errors (fun s => s) [kitchenSwitch] "x" true 0
    { name := "unknown", value := JSValue.bool true,
      characteristic := "On" }).2.2.1 (by decide)

/-! ## Claim C7 -/

/-- C7 (confirmed): for a Switch device with index `i` (`1 ≤ i ≤ 4`) the
encoder produces the command value
`"02" ++ (MAC octets reversed, colons stripped) ++ "8000" ++ data ++ "00"`,
where the data byte is the 2-uppercase-hex-digit rendering of the 8-bit field
whose MSB-first string position `4 - i` is value bit `3 + i` (always set) and
position `8 - i` is value bit `i - 1` (set iff turning on) — the two `testBit`
conjuncts state exactly that; and both encoders publish to
`"cmd/" ++ md5 (md5 gatewayId)`, the content hash applied twice to the
device's gateway id. -/
theorem C7_switch_encoding (md5 : String → String) (reg : Registry)
    (id : String) (device : Device) (i : Int) (m : String) (isOn : Bool)
    (h1 : getByName reg id = some device)
    (h2 : device.type = DeviceType.SWITCH)
    (h3 : device.macAddress = some m) (h4 : device.index = some i)
    (hlo : 1 ≤ i) (hhi : i ≤ 4) :
    (switchDevice md5 reg id isOn = Except.ok
      { topic := "cmd/" ++ md5 (md5 device.gatewayId),
        data := { command := "Control", function := "bleHelper.perform",
                  params := [{ action := "write", guid := device.guid,
                               mac_address := m, service_id := "ff80",
                               char_id := "ff81",
                               value := "02" ++ joinAll ((splitColon m).reverse)
                                 ++ "8000"
                                 ++ padStart (strUpper (intToHex
                                      ((2 ^ (3 + i.toNat) +
                                        (if isOn then 2 ^ (i.toNat - 1) else 0)
                                        : Nat) : Int))) 2 '0'
                                 ++ "00" }],
                  callback := "", raw := "" } }) ∧
    ((2 ^ (3 + i.toNat) + (if isOn then 2 ^ (i.toNat - 1) else 0)
      : Nat).testBit (3 + i.toNat) = true) ∧
    ((2 ^ (3 + i.toNat) + (if isOn then 2 ^ (i.toNat - 1) else 0)
      : Nat).testBit (i.toNat - 1) = isOn) ∧
    (∀ (id2 : String) (device2 : Device) (m2 : String) (b : Int),
      getByName reg id2 = some device2 →
      device2.type = DeviceType.DIMMING → device2.macAddress = some m2 →
      ∃ pub, dimmingDevice md5 reg id2 b = Except.ok pub ∧
        pub.topic = "cmd/" ++ md5 (md5 device2.gatewayId)) := by
  have hdata : switchDataByte (some i) isOn =
      padStart (strUpper (intToHex ((2 ^ (3 + i.toNat) +
        (if isOn then 2 ^ (i.toNat - 1) else 0) : Nat) : Int))) 2 '0' := by
    interval_cases i <;> cases isOn <;> decide
  refine ⟨?_, ?_, ?_, ?_⟩
  · unfold switchDevice
    simp only [h1, h2, h3, h4]
    rw [hdata]
    rfl
  · interval_cases i <;> cases isOn <;> decide
  · interval_cases i <;> cases isOn <;> decide
  · intro id2 device2 m2 b hg ht hm
    unfold dimmingDevice
    simp only [hg, ht, hm]
    exact ⟨_, rfl, rfl⟩

/-- C7 witness: the encoding applied to the sample switch (index 1, on)
produces a command publish whose topic is the double hash of `G1`. -/
theorem C7_witness :
    ∃ pub, switchDevice (fun s => s) [kitchenSwitch] "M1-1" true =
        Except.ok pub ∧ pub.topic = "cmd/G1" := by
  have h := C7_switch_encoding (fun s => s) [kitchenSwitch] "M1-1"
    kitchenSwitch 1 "aa:bb:cc:dd:ee:ff" true (by decide) rfl rfl rfl
    (by decide) (by decide)
  exact ⟨_, h.1, by decide⟩

/-! ## Claim C8 -/

/-- C8 (confirmed): for every integer brightness `0 ≤ b ≤ 100`, composing the
encoder scaling `Math.round(b / 100 * 255)` (the `jsRoundInt (255 * b) 100`
of `dimmingDevice`) with the decoder scaling `Math.round(v / 255 * 100)` (the
`jsRoundNat (v * 100) 255` of `handleDimmingBLEData`) lands within 1 of `b`. -/
theorem C8_scaling_roundtrip (b : Nat) (hb : b ≤ 100) :
    (jsRoundNat ((jsRoundInt (255 * b) 100).toNat * 100) 255 : Int) - b ≤ 1 ∧
    (b : Int) - (jsRoundNat ((jsRoundInt (255 * b) 100).toNat * 100) 255 : Int)
      ≤ 1 := by
  have key : ∀ c : Nat, c < 101 →
      ((jsRoundNat ((jsRoundInt (255 * c) 100).toNat * 100) 255 : Int) - c ≤ 1 ∧
       (c : Int) -
         (jsRoundNat ((jsRoundInt (255 * c) 100).toNat * 100) 255 : Int) ≤ 1) := by
    decide
  exact key b (by omega)

/-- C8 witness: the round trip at brightness 73. -/
theorem C8_witness :
    (jsRoundNat ((jsRoundInt (255 * (73 : Nat)) 100).toNat * 100) 255 : Int) -
      (73 : Nat) ≤ 1 ∧
    ((73 : Nat) : Int) -
      (jsRoundNat ((jsRoundInt (255 * (73 : Nat)) 100).toNat * 100) 255 : Int)
      ≤ 1 :=
  C8_scaling_roundtrip 73 (by decide)

/-! ## Claim C9 -/

/-- C9 (confirmed): after the BLE-ingress handler runs on payload `p`, the
replay cache maps the MAC `p[0..17)` to the tail `p[17..)`; no other cache
key changes; the registry is untouched; and the emitted publishes are exactly
the decode of the (MAC, tail) pair against the unchanged registry — in
particular the cache entry is present even when the decode emits nothing
(unknown MAC or failed decode). -/
theorem C9_cache_update (pfx : String) (st : BrokerState) (p : String) :
    ((extractAndCacheBleDeviceMessage pfx st p).1.cache =
      mapSet st.cache (strTake p 17) (strDrop p 17)) ∧
    (mapGet (extractAndCacheBleDeviceMessage pfx st p).1.cache (strTake p 17) =
      some (strDrop p 17)) ∧
    (∀ k, k ≠ strTake p 17 →
      mapGet (extractAndCacheBleDeviceMessage pfx st p).1.cache k =
        mapGet st.cache k) ∧
    ((extractAndCacheBleDeviceMessage pfx st p).1.registry = st.registry) ∧
    ((extractAndCacheBleDeviceMessage pfx st p).2 =
      handleBleDeviceData pfx st.registry (strTake p 17) (strDrop p 17)) := by
  refine ⟨rfl, ?_, ?_, rfl, rfl⟩
  · exact mapGet_set_self st.cache (strTake p 17) (strDrop p 17)
  · intro k hk
    exact mapGet_set_ne st.cache (strTake p 17) (strDrop p 17) k hk

/-- C9 witness: a payload for an unrelated MAC leaves the cached entry of
another key unchanged. -/
theorem C9_witness :
    mapGet (extractAndCacheBleDeviceMessage "homebridge" sampleState
      "aa:bb:cc:dd:ee:ff4002").1.cache "zz" = mapGet sampleState.cache "zz" :=
  (C9_cache_update "homebridge" sampleState "aa:bb:cc:dd:ee:ff4002").2.2.1
    "zz" (by decide)

/-! ## Claim C10 -/

/-- C10 (confirmed): a publish on `{prefix}/from/set` whose payload is not
valid JSON (`parse` returns `none`, modelling the `JSON.parse` throw) makes
`handlePublish` raise at the unguarded parse: the result is the escaped
exception, before any command dispatch (an `.error` result carries no state
change and no publish). -/
theorem C10_unguarded_json_parse (md5 : String → String)
    (parse : String → Option HomebridgeSetPayload) (pfx : String)
    (st : BrokerState) (payload : String) (h : parse payload = none) :
    handlePublish md5 parse pfx st (pfx ++ "/from/set") payload =
      Except.error "SyntaxError: JSON.parse" := by
  unfold handlePublish
  simp [h]

/-- C10 witness: the parse failure on a concrete non-JSON payload. -/
theorem C10_witness :
    handlePublish (fun s => s) (fun _ => none) "homebridge"
      { registry := [], cache := [] } ("homebridge" ++ "/from/set") "oops" =
      Except.error "SyntaxError: JSON.parse" :=
  C10_unguarded_json_parse (fun s => s) (fun _ => none) "homebridge"
    { registry := [], cache := [] } "oops" rfl

end Yoswit
